import Mathlib

/-!
Shallow embedding of `src/package/compliance_pkg/compliance_data_model.py`,
the Twitter Decahose compliance data model: a record classifier
(`ComplianceBase`) over single-key-rooted nested JSON records, five action
views (`TweetAction`, `UserAction`, `DropAction`, `ScrubGeoAction`,
`DeleteLikeAction`) and their accessors, together with the timestamp
extraction logic.

JSON records are embedded as `JVal`; Python `dict`s become ordered
association lists (insertion order preserved, matching Python 3.7+
semantics of `list(d.keys())[0]`).  Python exceptions become `Except PyErr`
results; each `PyErr` constructor is tagged with the Python exception and
message it stands for.
-/

namespace ComplianceModel

/-- A JSON-like value: Python `None`, numbers (ints, which is what the
compliance records carry), strings, lists and dicts.  Dicts are ordered
association lists of distinct keys. -/
inductive JVal where
  | null
  | num (n : Int)
  | str (s : String)
  | arr (xs : List JVal)
  | obj (fields : List (String × JVal))

/-- The Python exceptions the data model can raise, tagged by site:
* `missingRecord`: `ValueError("Compliance object cannot be None!")`;
* `attributeErr`: Python `AttributeError` (`.keys()` on a non-dict, or
  reading `self.is_..._action` when base initialization never ran);
* `indexErr`: Python `IndexError` from `list(self.comp_object.keys())[0]`
  on an empty dict;
* `unknownAction`: the `TypeError("Unknown action encountered!!...")` in
  `ComplianceBase.__init__` when the class-flag sum is not 1;
* `wrongActionClass`: the `TypeError("ComplianceBase does not contain a
  ... action!")` in each view constructor;
* `unknownSubAction`: the `TypeError("Unknown action encountered!!...")`
  raised by a view when its sub-action flag sum is not 1;
* `wrongArgType`: the `TypeError` each view constructor builds (but, in
  the source, never raises) for an argument that is neither a dict nor a
  `ComplianceBase`;
* `valueErr` / `typeErr`: `ValueError` / `TypeError` from `int(...)` and
  `datetime` parsing inside `get_timestamp`. -/
inductive PyErr where
  | missingRecord
  | attributeErr
  | indexErr
  | unknownAction
  | wrongActionClass
  | unknownSubAction
  | wrongArgType
  | valueErr
  | typeErr
deriving DecidableEq, Repr

/-- First value bound to `key` in an ordered dict, Python `d[key]` seen as
a total lookup. -/
def lookupField : List (String × JVal) → String → Option JVal
  | [], _ => none
  | (k, v) :: rest, key => if k = key then some v else lookupField rest key

/-- Modelled from the spec: `get_dict_val` is imported from the module
`compliance_pkg.utils`, which is not among the repository files.  Per the
spec, field lookup descends the record through each key of the path in
order and "returns null the moment any key is absent or the current value
is not a mapping; never raises for missing paths". -/
def get_dict_val : JVal → List String → JVal
  | v, [] => v
  | JVal.obj fields, k :: ks =>
    match lookupField fields k with
    | some v => get_dict_val v ks
    | none => JVal.null
  | _, _ :: _ => JVal.null

/-- `USER_ACTIONS` of the source (a Python `set`, embedded as the literal
list used to build it; only membership is ever queried). -/
def USER_ACTIONS : List String :=
  ["user_delete", "user_protect", "user_suspend", "user_undelete",
   "user_unprotect", "user_unsuspend", "user_withheld"]

/-- `TWEET_ACTIONS` of the source. -/
def TWEET_ACTIONS : List String := ["delete", "tweet_edit", "status_withheld"]

/-- `DROP_ACTIONS` of the source. -/
def DROP_ACTIONS : List String := ["drop", "undrop"]

/-- `GEO_ACTIONS` of the source. -/
def GEO_ACTIONS : List String := ["scrub_geo"]

/-- `LIKE_ACTIONS` of the source. -/
def LIKE_ACTIONS : List String := ["delete"]

/-- All recognized action names: the union of the five registry sets. -/
def ALL_RECOGNIZED : List String :=
  USER_ACTIONS ++ TWEET_ACTIONS ++ DROP_ACTIONS ++ GEO_ACTIONS ++ LIKE_ACTIONS

/-- Python `sum` over a list of booleans (`True` counts 1). -/
def boolToNat (b : Bool) : Nat := if b then 1 else 0

/-- Python `bool` sum, `sum(all_action_flags)`. -/
def flagSum (flags : List Bool) : Nat := (flags.map boolToNat).sum

/-- The state a successful `ComplianceBase.__init__` leaves behind: the
bound record, the extracted action name and the five class flags. -/
structure ComplianceBase where
  comp_object : JVal
  action : String
  is_user_action : Bool
  is_tweet_action : Bool
  is_drop_action : Bool
  is_geo_action : Bool
  is_like_action : Bool

/-- The five class flags in the order `ComplianceBase.__init__` lists them
in `all_action_flags`. -/
def ComplianceBase.classFlags (b : ComplianceBase) : List Bool :=
  [b.is_user_action, b.is_tweet_action, b.is_drop_action,
   b.is_geo_action, b.is_like_action]

/-- `ComplianceBase.__init__`: rejects `None`, reads the first top-level
key via `list(self.comp_object.keys())[0]` (IndexError on an empty dict,
AttributeError on a non-dict), computes the five membership flags, and
raises the unknown-action `TypeError` unless their sum is exactly 1. -/
def mkComplianceBase (comp_object : JVal) : Except PyErr ComplianceBase :=
  match comp_object with
  | JVal.null => Except.error PyErr.missingRecord
  | JVal.obj fields =>
    match fields.head? with
    | none => Except.error PyErr.indexErr
    | some (a, _) =>
      let isU := USER_ACTIONS.contains a
      let isT := TWEET_ACTIONS.contains a
      let isD := DROP_ACTIONS.contains a
      let isG := GEO_ACTIONS.contains a
      let isL := LIKE_ACTIONS.contains a
      if flagSum [isU, isT, isD, isG, isL] != 1 then
        Except.error PyErr.unknownAction
      else
        Except.ok ⟨JVal.obj fields, a, isU, isT, isD, isG, isL⟩
  | _ => Except.error PyErr.attributeErr

/-- `ComplianceBase.get_value`. -/
def ComplianceBase.get_value (b : ComplianceBase) (key_list : List String) : JVal :=
  get_dict_val b.comp_object key_list

mutual

/-- Python `repr` of the values a record may hold (used by `str()` on
lists and dicts; strings are quoted with single quotes). -/
def pyRepr : JVal → String
  | JVal.null => "None"
  | JVal.num n => toString n
  | JVal.str s => "\x27" ++ s ++ "\x27"
  | JVal.arr xs => "[" ++ pyReprItems xs ++ "]"
  | JVal.obj fields => "\x7b" ++ pyReprFields fields ++ "\x7d"

/-- Comma-separated `repr`s of a list's items. -/
def pyReprItems : List JVal → String
  | [] => ""
  | [v] => pyRepr v
  | v :: rest => pyRepr v ++ ", " ++ pyReprItems rest

/-- Comma-separated `'key': repr(value)` entries of a dict. -/
def pyReprFields : List (String × JVal) → String
  | [] => ""
  | [(k, v)] => "\x27" ++ k ++ "\x27: " ++ pyRepr v
  | (k, v) :: rest =>
    "\x27" ++ k ++ "\x27: " ++ pyRepr v ++ ", " ++ pyReprFields rest

end

/-- Python `str()` on a record value: identity on strings, decimal
rendering of ints, `"None"` for `None`, `repr` for containers. -/
def pyStr : JVal → String
  | JVal.null => "None"
  | JVal.num n => toString n
  | JVal.str s => s
  | JVal.arr xs => pyRepr (JVal.arr xs)
  | JVal.obj fields => pyRepr (JVal.obj fields)

/-- The argument a view constructor receives: a `ComplianceBase` (or
subclass) instance, a raw dict, or any other Python object (`other`) —
the source treats every non-dict, non-`ComplianceBase` argument
identically, so one constructor stands for them all. -/
inductive ViewArg where
  | base (b : ComplianceBase)
  | dict (fields : List (String × JVal))
  | other

/-- The shared head of every view constructor, lines such as 199-211 of
the source: `isinstance(x, ComplianceBase)` re-runs
`ComplianceBase.__init__` on `x.comp_object`; `isinstance(x, dict)` runs
it on the dict; otherwise the source only *builds*
`TypeError("... type must be one of: [ComplianceBase, dict]")` without
raising it, so no base initialization happens (`ok none`) and the
constructor's very next `self.is_..._action` read raises
`AttributeError`. -/
def viewInitBase (arg : ViewArg) : Except PyErr (Option ComplianceBase) :=
  match arg with
  | ViewArg.base b => (mkComplianceBase b.comp_object).map some
  | ViewArg.dict fields => (mkComplianceBase (JVal.obj fields)).map some
  | ViewArg.other => Except.ok none

/-- `TweetAction`: the base state plus the three sub-action flags. -/
structure TweetAction extends ComplianceBase where
  is_delete : Bool
  is_tweet_edit : Bool
  is_tweet_witheld : Bool

/-- The tweet sub-action flags in the order `TweetAction.__init__` lists
them in `all_action_flags`. -/
def TweetAction.subFlags (t : TweetAction) : List Bool :=
  [t.is_delete, t.is_tweet_edit, t.is_tweet_witheld]

/-- `TweetAction.__init__`. -/
def mkTweetAction (tweet_action : ViewArg) : Except PyErr TweetAction := do
  match ← viewInitBase tweet_action with
  | none => Except.error PyErr.attributeErr
  | some base =>
    if !base.is_tweet_action then Except.error PyErr.wrongActionClass
    else
      let d := base.action == "delete"
      let e := base.action == "tweet_edit"
      let w := base.action == "status_withheld"
      if flagSum [d, e, w] != 1 then Except.error PyErr.unknownSubAction
      else Except.ok ⟨base, d, e, w⟩

/-- `TweetAction.get_tweet_id`.  Note the `tweet_edit` branch reads the
path `[self.action, "tweet_edit", "id"]`, exactly as in the source. -/
def TweetAction.get_tweet_id (t : TweetAction) : JVal :=
  if t.is_delete || t.is_tweet_witheld then
    t.get_value [t.action, "status", "id_str"]
  else if t.is_tweet_edit then
    t.get_value [t.action, "tweet_edit", "id"]
  else
    JVal.null

/-- `TweetAction.get_edit_tweet_ids`: a triple of values, `(None, None,
None)` unless the action is a tweet edit. -/
def TweetAction.get_edit_tweet_ids (t : TweetAction) : JVal × JVal × JVal :=
  if t.is_tweet_edit = false then (JVal.null, JVal.null, JVal.null)
  else
    (t.get_value [t.action, "id"],
     t.get_value [t.action, "initial_tweet_id"],
     t.get_value [t.action, "edit_tweet_ids"])

/-- `TweetAction.get_user_id`. -/
def TweetAction.get_user_id (t : TweetAction) : JVal :=
  if t.is_delete || t.is_tweet_witheld then
    t.get_value [t.action, "status", "user_id_str"]
  else JVal.null

/-- `TweetAction.get_withheld_countries`. -/
def TweetAction.get_withheld_countries (t : TweetAction) : JVal :=
  if t.is_tweet_witheld then
    t.get_value [t.action, "withheld_in_countries"]
  else JVal.null

/-- `UserAction`: the base state plus the seven sub-action flags. -/
structure UserAction extends ComplianceBase where
  is_user_delete : Bool
  is_user_protect : Bool
  is_user_suspend : Bool
  is_user_undelete : Bool
  is_user_unprotect : Bool
  is_user_unsuspend : Bool
  is_user_withheld : Bool

/-- The user sub-action flags in the order `UserAction.__init__` lists
them in `all_action_flags`. -/
def UserAction.subFlags (u : UserAction) : List Bool :=
  [u.is_user_delete, u.is_user_protect, u.is_user_suspend,
   u.is_user_undelete, u.is_user_unprotect, u.is_user_unsuspend,
   u.is_user_withheld]

/-- `UserAction.__init__`. -/
def mkUserAction (user_action : ViewArg) : Except PyErr UserAction := do
  match ← viewInitBase user_action with
  | none => Except.error PyErr.attributeErr
  | some base =>
    if !base.is_user_action then Except.error PyErr.wrongActionClass
    else
      let d := base.action == "user_delete"
      let p := base.action == "user_protect"
      let s := base.action == "user_suspend"
      let ud := base.action == "user_undelete"
      let up := base.action == "user_unprotect"
      let us := base.action == "user_unsuspend"
      let w := base.action == "user_withheld"
      if flagSum [d, p, s, ud, up, us, w] != 1 then
        Except.error PyErr.unknownSubAction
      else Except.ok ⟨base, d, p, s, ud, up, us, w⟩

/-- `UserAction.get_user_id`: the non-withheld branch wraps the lookup in
Python `str(...)` (user ids are numeric in those messages), so it always
produces a string — `str(None) = "None"` when the field is absent. -/
def UserAction.get_user_id (u : UserAction) : JVal :=
  if u.is_user_withheld = false then
    JVal.str (pyStr (u.get_value [u.action, "id"]))
  else
    u.get_value [u.action, "user", "id_str"]

/-- `UserAction.get_withheld_countries`. -/
def UserAction.get_withheld_countries (u : UserAction) : JVal :=
  if u.is_user_withheld then
    u.get_value [u.action, "withheld_in_countries"]
  else JVal.null

/-- `DropAction`: the base state plus the two sub-action flags. -/
structure DropAction extends ComplianceBase where
  is_drop : Bool
  is_undrop : Bool

/-- The drop sub-action flags in the order `DropAction.__init__` lists
them in `all_action_flags`. -/
def DropAction.subFlags (d : DropAction) : List Bool :=
  [d.is_drop, d.is_undrop]

/-- `DropAction.__init__`. -/
def mkDropAction (drop_action : ViewArg) : Except PyErr DropAction := do
  match ← viewInitBase drop_action with
  | none => Except.error PyErr.attributeErr
  | some base =>
    if !base.is_drop_action then Except.error PyErr.wrongActionClass
    else
      let dr := base.action == "drop"
      let un := base.action == "undrop"
      if flagSum [dr, un] != 1 then Except.error PyErr.unknownSubAction
      else Except.ok ⟨base, dr, un⟩

/-- `DropAction.get_tweet_id`. -/
def DropAction.get_tweet_id (d : DropAction) : JVal :=
  d.get_value [d.action, "status", "id_str"]

/-- `DropAction.get_user_id`. -/
def DropAction.get_user_id (d : DropAction) : JVal :=
  d.get_value [d.action, "status", "user_id_str"]

/-- `ScrubGeoAction`: the source defines no sub-action flags for it. -/
structure ScrubGeoAction extends ComplianceBase where

/-- The (empty) list of sub-action flags `ScrubGeoAction.__init__`
defines. -/
def ScrubGeoAction.subFlags (_ : ScrubGeoAction) : List Bool := []

/-- `ScrubGeoAction.__init__`. -/
def mkScrubGeoAction (geo_action : ViewArg) : Except PyErr ScrubGeoAction := do
  match ← viewInitBase geo_action with
  | none => Except.error PyErr.attributeErr
  | some base =>
    if !base.is_geo_action then Except.error PyErr.wrongActionClass
    else Except.ok ⟨base⟩

/-- `ScrubGeoAction.get_user_id`. -/
def ScrubGeoAction.get_user_id (g : ScrubGeoAction) : JVal :=
  g.get_value [g.action, "user_id_str"]

/-- `ScrubGeoAction.get_up_to_status_id`. -/
def ScrubGeoAction.get_up_to_status_id (g : ScrubGeoAction) : JVal :=
  g.get_value [g.action, "up_to_status_id_str"]

/-- `DeleteLikeAction`: the source defines no sub-action flags for it. -/
structure DeleteLikeAction extends ComplianceBase where

/-- The (empty) list of sub-action flags `DeleteLikeAction.__init__`
defines. -/
def DeleteLikeAction.subFlags (_ : DeleteLikeAction) : List Bool := []

/-- `DeleteLikeAction.__init__`. -/
def mkDeleteLikeAction (like_action : ViewArg) : Except PyErr DeleteLikeAction := do
  match ← viewInitBase like_action with
  | none => Except.error PyErr.attributeErr
  | some base =>
    if !base.is_like_action then Except.error PyErr.wrongActionClass
    else Except.ok ⟨base⟩

/-- `DeleteLikeAction.get_tweet_id`. -/
def DeleteLikeAction.get_tweet_id (l : DeleteLikeAction) : JVal :=
  l.get_value [l.action, "favorite", "tweet_id_str"]

/-- `DeleteLikeAction.get_user_id`. -/
def DeleteLikeAction.get_user_id (l : DeleteLikeAction) : JVal :=
  l.get_value [l.action, "favorite", "user_id_str"]

/-- A `datetime.datetime` value: proleptic Gregorian calendar fields plus
an optional fixed UTC offset in minutes standing for `tzinfo` (absent =
naive). -/
structure PyDateTime where
  year : Int
  month : Nat
  day : Nat
  hour : Nat
  minute : Nat
  second : Nat
  microsecond : Nat
  tzOffsetMinutes : Option Int
deriving DecidableEq, Repr

/-- `dt.replace(tzinfo=None)`: drop the offset, keep the calendar
fields. -/
def PyDateTime.replaceTzNone : PyDateTime → PyDateTime
  | ⟨y, mo, d, h, mi, s, us, _⟩ => ⟨y, mo, d, h, mi, s, us, none⟩

/-- Days since 1970-01-01 of a proleptic Gregorian civil date (the
standard days-from-civil computation; Lean's `/` and `%` on `Int` floor
toward negative infinity for positive divisors, which is what the
algorithm needs). -/
def daysFromCivil (y m d : Int) : Int :=
  let y := if m ≤ 2 then y - 1 else y
  let era := y / 400
  let yoe := y - era * 400
  let mp := (m + 9) % 12
  let doy := (153 * mp + 2) / 5 + d - 1
  let doe := yoe * 365 + yoe / 4 - yoe / 100 + doy
  era * 146097 + doe - 719468

/-- The civil date `(year, month, day)` of a days-since-1970-01-01 count
(the inverse of `daysFromCivil`). -/
def civilFromDays (z0 : Int) : Int × Int × Int :=
  let z := z0 + 719468
  let era := z / 146097
  let doe := z - era * 146097
  let yoe := (doe - doe / 1460 + doe / 36524 - doe / 146096) / 365
  let y := yoe + era * 400
  let doy := doe - (365 * yoe + yoe / 4 - yoe / 100)
  let mp := (5 * doy + 2) / 153
  let d := doy - (153 * mp + 2) / 5 + 1
  let m := if mp < 10 then mp + 3 else mp - 9
  (if m ≤ 2 then y + 1 else y, m, d)

/-- `int(dt.timestamp() * 1000)` of a naive datetime on a host whose
local timezone is UTC, in exact integer arithmetic (the source goes
through an IEEE-754 float, which for millisecond-precision values of the
kinds in these records yields the same integer). -/
def PyDateTime.timestampMs (dt : PyDateTime) : Int :=
  (daysFromCivil dt.year dt.month dt.day * 86400
      + dt.hour * 3600 + dt.minute * 60 + dt.second) * 1000
    + (dt.microsecond : Int) / 1000

/-- `datetime.datetime.fromtimestamp(ms / 1000)` on a host whose local
timezone is UTC, in exact integer arithmetic over the millisecond count
(the source divides by 1000 in float; the result is a naive datetime). -/
def pyFromtimestampMs (ms : Int) : PyDateTime :=
  let secs := ms / 1000
  let us := (ms % 1000).toNat * 1000
  let days := secs / 86400
  let sod := (secs % 86400).toNat
  let ymd := civilFromDays days
  ⟨ymd.1, ymd.2.1.toNat, ymd.2.2.toNat,
   sod / 3600, sod % 3600 / 60, sod % 60, us, none⟩

/-- The numeric value of a list of decimal digit characters, `none` if
the list is empty or holds a non-digit. -/
def digitsToNat? (cs : List Char) : Option Nat :=
  if cs ≠ [] ∧ cs.all Char.isDigit then
    some (cs.foldl (fun n c => n * 10 + (c.toNat - 48)) 0)
  else none

/-- Length of a proleptic Gregorian month. -/
def daysInMonth (y : Int) (m : Nat) : Nat :=
  if m = 2 then
    if y % 4 = 0 ∧ (y % 100 ≠ 0 ∨ y % 400 = 0) then 29 else 28
  else if m = 4 ∨ m = 6 ∨ m = 9 ∨ m = 11 then 30
  else 31

/-- The leading run of decimal digits of a character list, and the
rest. -/
def spanDigits : List Char → List Char × List Char
  | [] => ([], [])
  | c :: rest =>
    if c.isDigit then
      let sp := spanDigits rest
      (c :: sp.1, sp.2)
    else ([], c :: rest)

/-- The fractional-seconds part of an ISO time (`datetime.fromisoformat`
accepts exactly 3 or 6 digits after the dot): microseconds and the
remaining characters. -/
def parseIsoFraction (cs : List Char) : Option (Nat × List Char) :=
  let sp := spanDigits cs
  match digitsToNat? sp.1 with
  | none => none
  | some n =>
    if sp.1.length = 3 then some (n * 1000, sp.2)
    else if sp.1.length = 6 then some (n, sp.2)
    else none

/-- The trailing UTC-offset part of an ISO time: empty (naive) or
`+HH:MM` / `-HH:MM`, as minutes. -/
def parseIsoOffset : List Char → Option (Option Int)
  | [] => some none
  | sign :: h1 :: h2 :: ':' :: m1 :: m2 :: [] =>
    if sign = '+' ∨ sign = '-' then
      match digitsToNat? [h1, h2], digitsToNat? [m1, m2] with
      | some hh, some mm =>
        if hh < 24 ∧ mm < 60 then
          let off : Int := hh * 60 + mm
          some (some (if sign = '-' then -off else off))
        else none
      | _, _ => none
    else none
  | _ => some none

/-- The `HH:MM[:SS[.fff[fff]]][+HH:MM]` part of an ISO string:
`(hour, minute, second, microsecond, offset)`. -/
def parseIsoTime : List Char → Option (Nat × Nat × Nat × Nat × Option Int)
  | h1 :: h2 :: ':' :: m1 :: m2 :: rest =>
    match digitsToNat? [h1, h2], digitsToNat? [m1, m2] with
    | some hh, some mm =>
      if hh < 24 ∧ mm < 60 then
        match rest with
        | ':' :: s1 :: s2 :: rest2 =>
          match digitsToNat? [s1, s2] with
          | some ss =>
            if ss < 60 then
              match rest2 with
              | '.' :: rest3 =>
                match parseIsoFraction rest3 with
                | some (us, rest4) =>
                  (parseIsoOffset rest4).map fun tz => (hh, mm, ss, us, tz)
                | none => none
              | _ =>
                (parseIsoOffset rest2).map fun tz => (hh, mm, ss, 0, tz)
            else none
          | none => none
        | _ => (parseIsoOffset rest).map fun tz => (hh, mm, 0, 0, tz)
      else none
    | _, _ => none
  | _ => none

/-- `datetime.datetime.fromisoformat` on the
`YYYY-MM-DD[<sep>HH:MM[:SS[.fff[fff]]][+HH:MM]]` shapes it accepts
(Python 3.7-3.10 contract, current when the source was written);
`none` models the `ValueError` it raises on anything else. -/
def pyFromIsoformat (s : String) : Option PyDateTime :=
  match s.toList with
  | y1 :: y2 :: y3 :: y4 :: '-' :: mo1 :: mo2 :: '-' :: d1 :: d2 :: rest =>
    match digitsToNat? [y1, y2, y3, y4], digitsToNat? [mo1, mo2],
        digitsToNat? [d1, d2] with
    | some y, some mo, some d =>
      if 1 ≤ mo ∧ mo ≤ 12 ∧ 1 ≤ d ∧ d ≤ daysInMonth y mo then
        match rest with
        | [] => some ⟨y, mo, d, 0, 0, 0, 0, none⟩
        | _ :: timeChars =>
          (parseIsoTime timeChars).map fun t =>
            ⟨y, mo, d, t.1, t.2.1, t.2.2.1, t.2.2.2.1, t.2.2.2.2⟩
      else none
    | _, _, _ => none
  | _ => none

/-- Python `int(s)` on a string: an optional sign followed by digits
(`none` models the `ValueError` on anything else; surrounding whitespace
never occurs in these records). -/
def pyIntOfString (s : String) : Option Int :=
  match s.toList with
  | '-' :: rest => (digitsToNat? rest).map fun n => -(n : Int)
  | '+' :: rest => (digitsToNat? rest).map fun n => (n : Int)
  | cs => (digitsToNat? cs).map fun n => (n : Int)

/-- Python `int(x)` on a record value: ints pass through, numeric strings
parse, everything else raises (`TypeError` for `None`/containers,
`ValueError` for non-numeric strings). -/
def pyInt (v : JVal) : Except PyErr Int :=
  match v with
  | JVal.num n => Except.ok n
  | JVal.str s =>
    match pyIntOfString s with
    | some n => Except.ok n
    | none => Except.error PyErr.valueErr
  | _ => Except.error PyErr.typeErr

/-- What `get_timestamp` returns: a record value (the raw `timestamp_ms`
field, or the recomputed millisecond string) or a datetime object. -/
inductive TsResult where
  | val (v : JVal)
  | dt (d : PyDateTime)

/-- `ComplianceBase.get_timestamp`.  `self.is_user_withheld` is an
attribute only a `UserAction.__init__` ever sets, so it is passed here as
an `Option Bool`: `none` (the attribute is absent) makes the
`self.is_user_withheld` read on the user-action path raise
`AttributeError`, exactly as the source does when `get_timestamp` is
called on a bare `ComplianceBase` holding a user action. -/
def ComplianceBase.get_timestamp (b : ComplianceBase)
    (is_user_withheld : Option Bool) (as_datetime : Bool) :
    Except PyErr TsResult :=
  if b.is_user_action then
    match is_user_withheld with
    | none => Except.error PyErr.attributeErr
    | some true =>
      match b.get_value [b.action, "timestampMs"] with
      | JVal.str iso_fmt_time =>
        match pyFromIsoformat iso_fmt_time with
        | none => Except.error PyErr.valueErr
        | some dt0 =>
          let dt_obj := dt0.replaceTzNone
          if as_datetime then Except.ok (TsResult.dt dt_obj)
          else Except.ok (TsResult.val (JVal.str (toString dt_obj.timestampMs)))
      | _ => Except.error PyErr.typeErr
    | some false =>
      let timestamp_ms := b.get_value [b.action, "timestamp_ms"]
      if as_datetime then
        (pyInt timestamp_ms).map fun n => TsResult.dt (pyFromtimestampMs n)
      else Except.ok (TsResult.val timestamp_ms)
  else
    let timestamp_ms := b.get_value [b.action, "timestamp_ms"]
    if as_datetime then
      (pyInt timestamp_ms).map fun n => TsResult.dt (pyFromtimestampMs n)
    else Except.ok (TsResult.val timestamp_ms)

/-- `get_timestamp` called on a `UserAction` instance, where
`self.is_user_withheld` is always set. -/
def UserAction.get_timestamp (u : UserAction) (as_datetime : Bool) :
    Except PyErr TsResult :=
  u.toComplianceBase.get_timestamp (some u.is_user_withheld) as_datetime

/-! Scaffolding for stating the claims: the five action classes, the class
an action name buckets into (following the order the source computes its
flags), a dispatcher from a class to its view constructor, and concrete
example records. -/

/-- The five action classes of the data model. -/
inductive ActionClass where
  | user
  | tweet
  | drop
  | scrubGeo
  | like
deriving DecidableEq

/-- The class whose registry set an action name belongs to, first match
in the order the source computes its flags (for names in exactly one set
this is the unique matching class). -/
def classOf (a : String) : ActionClass :=
  if USER_ACTIONS.contains a then ActionClass.user
  else if TWEET_ACTIONS.contains a then ActionClass.tweet
  else if DROP_ACTIONS.contains a then ActionClass.drop
  else if GEO_ACTIONS.contains a then ActionClass.scrubGeo
  else ActionClass.like

/-- Run the view constructor of a class on an argument, keeping only the
base state (so the five differently-typed results are comparable). -/
def viewConstructs (c : ActionClass) (arg : ViewArg) :
    Except PyErr ComplianceBase :=
  match c with
  | ActionClass.user => (mkUserAction arg).map UserAction.toComplianceBase
  | ActionClass.tweet => (mkTweetAction arg).map TweetAction.toComplianceBase
  | ActionClass.drop => (mkDropAction arg).map DropAction.toComplianceBase
  | ActionClass.scrubGeo =>
    (mkScrubGeoAction arg).map ScrubGeoAction.toComplianceBase
  | ActionClass.like =>
    (mkDeleteLikeAction arg).map DeleteLikeAction.toComplianceBase

/-- `true` iff the construction raised no error. -/
def succeeds {α : Type} : Except PyErr α → Bool
  | Except.ok _ => true
  | Except.error _ => false

/-- The tweet-edit record of the spec's tweet-edit scenario. -/
def editRecordFields : List (String × JVal) :=
  [("tweet_edit", JVal.obj
    [("id", JVal.str "999"),
     ("initial_tweet_id", JVal.str "111"),
     ("edit_tweet_ids",
      JVal.arr [JVal.str "111", JVal.str "555", JVal.str "999"])])]

/-- A `user_withheld` record carrying the ISO-form timestamp of the
spec's user-withheld scenario. -/
def withheldRecord : JVal :=
  JVal.obj [("user_withheld", JVal.obj
    [("timestampMs", JVal.str "2021-01-07T12:00:00.123")])]

/-- The `UserAction` state that classifying `withheldRecord` produces. -/
def withheldUser : UserAction :=
  ⟨⟨withheldRecord, "user_withheld", true, false, false, false, false⟩,
   false, false, false, false, false, false, true⟩

/-- A `drop` record carrying the epoch-millisecond timestamp of the
spec's round-trip scenario. -/
def dropTsRecord : JVal :=
  JVal.obj [("drop", JVal.obj [("timestamp_ms", JVal.str "1610000000123")])]

/-- The `ComplianceBase` state that classifying `dropTsRecord`
produces. -/
def dropTsBase : ComplianceBase :=
  ⟨dropTsRecord, "drop", false, false, true, false, false⟩

/-- The top-level fields of a minimal `scrub_geo` record. -/
def geoFields : List (String × JVal) := [("scrub_geo", JVal.obj [])]

/-- The `ComplianceBase` state that classifying the `scrub_geo` record
produces. -/
def geoBase : ComplianceBase :=
  ⟨JVal.obj geoFields, "scrub_geo", false, false, false, true, false⟩

/-! The claims. -/

/-- Claim C1.  The claim says the five action-class registry sets are
pairwise disjoint; in the code the action name `"delete"` is a member of
both `TWEET_ACTIONS` and `LIKE_ACTIONS`, so the classifier's
exactly-one-flag check raises the unknown-action error on every
`{"delete": ...}` record (which the existence of `TweetAction.is_delete`
and of the whole `DeleteLikeAction` class shows was not intended). -/
theorem claim_c1_delete_in_two_classes :
    "delete" ∈ TWEET_ACTIONS ∧ "delete" ∈ LIKE_ACTIONS ∧
    mkComplianceBase (JVal.obj [("delete", JVal.obj [])]) =
      Except.error PyErr.unknownAction :=
  ⟨by decide, by decide, rfl⟩

/-- Claim C3.  For the spec's tweet-edit record (`id="999"`,
`initial_tweet_id="111"`, `edit_tweet_ids=["111","555","999"]` under the
top-level `"tweet_edit"` key): the edit-chain accessor returns the triple
`("999", "111", ["111","555","999"])` and the user-ID accessor returns
null, as the claim says — but the tweet-ID accessor returns null, not
`"999"`, because `get_tweet_id` reads the path
`[action, "tweet_edit", "id"]` (i.e. `["tweet_edit", "tweet_edit", "id"]`)
while `get_edit_tweet_ids` reads `[action, "id"]` for the same record
shape. -/
theorem claim_c3_tweet_edit_accessors :
    (mkTweetAction (ViewArg.dict editRecordFields)).map
        (fun t => (t.get_edit_tweet_ids, t.get_tweet_id, t.get_user_id)) =
      Except.ok
        ((JVal.str "999", JVal.str "111",
          JVal.arr [JVal.str "111", JVal.str "555", JVal.str "999"]),
         JVal.null, JVal.null) :=
  rfl

/-- Claim C9.  Constructing a classifier from a non-null empty mapping
fails with the IndexError from `list(self.comp_object.keys())[0]`, not
with the missing-record or unknown-action errors; and whenever the record
has at least one top-level key, that failing branch is unreachable
(classification then either succeeds or raises the unknown-action
error). -/
theorem claim_c9_empty_dict_index_error :
    mkComplianceBase (JVal.obj []) = Except.error PyErr.indexErr ∧
    PyErr.indexErr ≠ PyErr.missingRecord ∧
    PyErr.indexErr ≠ PyErr.unknownAction ∧
    ∀ (kv : String × JVal) (rest : List (String × JVal)),
      mkComplianceBase (JVal.obj (kv :: rest)) =
          Except.error PyErr.unknownAction ∨
        succeeds (mkComplianceBase (JVal.obj (kv :: rest))) = true := by
  refine ⟨rfl, by decide, by decide, ?_⟩
  intro kv rest
  obtain ⟨a, v⟩ := kv
  unfold mkComplianceBase
  simp only [List.head?]
  split
  · exact Or.inl rfl
  · exact Or.inr rfl

/-- Claim C10.  For an argument that is neither a dict nor a
`ComplianceBase`, each view constructor builds — but never raises — its
wrong-argument-type `TypeError`, so the base-class initialization never
runs and the constructor instead fails with `AttributeError` at the very
next `self.is_..._action` read. -/
theorem claim_c10_bad_arg_attribute_error :
    mkTweetAction ViewArg.other = Except.error PyErr.attributeErr ∧
    mkUserAction ViewArg.other = Except.error PyErr.attributeErr ∧
    mkDropAction ViewArg.other = Except.error PyErr.attributeErr ∧
    mkScrubGeoAction ViewArg.other = Except.error PyErr.attributeErr ∧
    mkDeleteLikeAction ViewArg.other = Except.error PyErr.attributeErr ∧
    PyErr.attributeErr ≠ PyErr.wrongArgType :=
  ⟨rfl, rfl, rfl, rfl, rfl, by decide⟩

/-- Claim C2, counterexample.  `{"delete": {}}` is a well-formed record in
the claim's sense (its sole top-level key `"delete"` is a recognized
action name), yet constructing the classifier — and hence either matching
view — fails with the unknown-action error rather than succeeding,
because `"delete"` sits in two registry sets. -/
theorem claim_c2_delete_record_fails :
    "delete" ∈ ALL_RECOGNIZED ∧
    succeeds (mkComplianceBase (JVal.obj [("delete", JVal.obj [])])) =
      false ∧
    mkTweetAction (ViewArg.dict [("delete", JVal.obj [])]) =
      Except.error PyErr.unknownAction ∧
    mkDeleteLikeAction (ViewArg.dict [("delete", JVal.obj [])]) =
      Except.error PyErr.unknownAction :=
  ⟨by decide, rfl, rfl, rfl⟩

/-- Claim C2, amended: for every non-null mapping whose sole top-level
key is a recognized action name *other than `"delete"`* (the one name in
two registry sets), classification succeeds, constructing the Action View
of the matching class succeeds, and constructing a view of any other
class fails with the wrong-action-class error. -/
theorem claim_c2_wellformed_record_classification
    (a : String) (v : JVal) (hmem : a ∈ ALL_RECOGNIZED)
    (hne : a ≠ "delete") :
    succeeds (mkComplianceBase (JVal.obj [(a, v)])) = true ∧
    succeeds (viewConstructs (classOf a) (ViewArg.dict [(a, v)])) = true ∧
    ∀ c : ActionClass, c ≠ classOf a →
      viewConstructs c (ViewArg.dict [(a, v)]) =
        Except.error PyErr.wrongActionClass := by
  simp only [ALL_RECOGNIZED, USER_ACTIONS, TWEET_ACTIONS, DROP_ACTIONS,
    GEO_ACTIONS, LIKE_ACTIONS, List.append_assoc, List.cons_append,
    List.nil_append, List.mem_cons, List.not_mem_nil, or_false] at hmem
  rcases hmem with rfl | rfl | rfl | rfl | rfl | rfl | rfl | rfl | rfl |
    rfl | rfl | rfl | rfl | rfl
  all_goals
    first
    | exact absurd rfl hne
    | exact ⟨rfl, rfl, by
        intro c hc
        cases c <;> first | exact absurd rfl hc | rfl⟩

/-- Claim C2, witness: the amended statement at the concrete record
`{"user_delete": {}}`. -/
theorem claim_c2_wellformed_witness :
    succeeds (mkComplianceBase (JVal.obj [("user_delete", JVal.obj [])])) =
      true ∧
    succeeds (viewConstructs (classOf "user_delete")
        (ViewArg.dict [("user_delete", JVal.obj [])])) = true ∧
    ∀ c : ActionClass, c ≠ classOf "user_delete" →
      viewConstructs c (ViewArg.dict [("user_delete", JVal.obj [])]) =
        Except.error PyErr.wrongActionClass :=
  claim_c2_wellformed_record_classification "user_delete" (JVal.obj [])
    (by decide) (by decide)

/-- Claim C4, counterexample.  Accessors indeed never raise, but one of
them does not yield null on an absent path: for a `user_delete` record
with no `id` field, `UserAction.get_user_id` returns the *string*
`"None"` (the `str(...)` coercion applied to the null lookup), not
null. -/
theorem claim_c4_user_id_str_none :
    (mkUserAction (ViewArg.dict [("user_delete", JVal.obj [])])).map
        UserAction.get_user_id =
      Except.ok (JVal.str "None") ∧
    JVal.str "None" ≠ JVal.null :=
  ⟨rfl, fun h => JVal.noConfusion h⟩

/-- Claim C4, amended: field lookup and every accessor are total (never
raise), and an absent key along the queried path yields null — except
`UserAction.get_user_id` in the non-withheld sub-actions, which coerces
the lookup with `str(...)` and therefore yields the string `"None"` when
the `id` field is absent. -/
theorem claim_c4_accessors_never_raise_null_on_missing :
    (∀ (fields : List (String × JVal)) (k : String) (ks : List String),
      lookupField fields k = none →
      get_dict_val (JVal.obj fields) (k :: ks) = JVal.null) ∧
    (∀ (v : JVal) (k : String) (ks : List String),
      (∀ fields, v ≠ JVal.obj fields) →
      get_dict_val v (k :: ks) = JVal.null) ∧
    (∀ t : TweetAction,
      t.get_value [t.action, "status", "id_str"] = JVal.null →
      t.get_value [t.action, "tweet_edit", "id"] = JVal.null →
      t.get_tweet_id = JVal.null) ∧
    (∀ t : TweetAction,
      t.get_value [t.action, "id"] = JVal.null →
      t.get_value [t.action, "initial_tweet_id"] = JVal.null →
      t.get_value [t.action, "edit_tweet_ids"] = JVal.null →
      t.get_edit_tweet_ids = (JVal.null, JVal.null, JVal.null)) ∧
    (∀ t : TweetAction,
      t.get_value [t.action, "status", "user_id_str"] = JVal.null →
      t.get_user_id = JVal.null) ∧
    (∀ t : TweetAction,
      t.get_value [t.action, "withheld_in_countries"] = JVal.null →
      t.get_withheld_countries = JVal.null) ∧
    (∀ u : UserAction, u.is_user_withheld = false →
      u.get_value [u.action, "id"] = JVal.null →
      u.get_user_id = JVal.str "None") ∧
    (∀ u : UserAction, u.is_user_withheld = true →
      u.get_value [u.action, "user", "id_str"] = JVal.null →
      u.get_user_id = JVal.null) ∧
    (∀ u : UserAction,
      u.get_value [u.action, "withheld_in_countries"] = JVal.null →
      u.get_withheld_countries = JVal.null) ∧
    (∀ d : DropAction,
      d.get_value [d.action, "status", "id_str"] = JVal.null →
      d.get_tweet_id = JVal.null) ∧
    (∀ d : DropAction,
      d.get_value [d.action, "status", "user_id_str"] = JVal.null →
      d.get_user_id = JVal.null) ∧
    (∀ g : ScrubGeoAction,
      g.get_value [g.action, "user_id_str"] = JVal.null →
      g.get_user_id = JVal.null) ∧
    (∀ g : ScrubGeoAction,
      g.get_value [g.action, "up_to_status_id_str"] = JVal.null →
      g.get_up_to_status_id = JVal.null) ∧
    (∀ l : DeleteLikeAction,
      l.get_value [l.action, "favorite", "tweet_id_str"] = JVal.null →
      l.get_tweet_id = JVal.null) ∧
    (∀ l : DeleteLikeAction,
      l.get_value [l.action, "favorite", "user_id_str"] = JVal.null →
      l.get_user_id = JVal.null) := by
  refine ⟨?_, ?_, ?_, ?_, ?_, ?_, ?_, ?_, ?_, ?_, ?_, ?_, ?_, ?_, ?_⟩
  · intro fields k ks h
    unfold get_dict_val
    rw [h]
  · intro v k ks h
    cases v with
    | null => rfl
    | num n => rfl
    | str s => rfl
    | arr xs => rfl
    | obj fields => exact absurd rfl (h fields)
  · intro t h1 h2
    unfold TweetAction.get_tweet_id
    split
    · exact h1
    · split
      · exact h2
      · rfl
  · intro t h1 h2 h3
    unfold TweetAction.get_edit_tweet_ids
    split
    · rfl
    · rw [h1, h2, h3]
  · intro t h
    unfold TweetAction.get_user_id
    split
    · exact h
    · rfl
  · intro t h
    unfold TweetAction.get_withheld_countries
    split
    · exact h
    · rfl
  · intro u hw h
    unfold UserAction.get_user_id
    rw [hw]
    simp [h, pyStr]
  · intro u hw h
    unfold UserAction.get_user_id
    rw [hw]
    simpa using h
  · intro u h
    unfold UserAction.get_withheld_countries
    split
    · exact h
    · rfl
  · intro d h
    unfold DropAction.get_tweet_id
    exact h
  · intro d h
    unfold DropAction.get_user_id
    exact h
  · intro g h
    unfold ScrubGeoAction.get_user_id
    exact h
  · intro g h
    unfold ScrubGeoAction.get_up_to_status_id
    exact h
  · intro l h
    unfold DeleteLikeAction.get_tweet_id
    exact h
  · intro l h
    unfold DeleteLikeAction.get_user_id
    exact h

/-- Claim C5.  For a user-withheld record whose `[action, "timestampMs"]`
field holds the ISO string `"2021-01-07T12:00:00.123"`, numeric-string
extraction parses it, strips the timezone, and returns the
millisecond-epoch string `"1610020800123"` of that instant (the naive
value read as UTC, matching the source run on a UTC host); structured
extraction returns the equivalent naive datetime value. -/
theorem claim_c5_user_withheld_timestamp (u : UserAction)
    (h1 : u.is_user_action = true) (h2 : u.is_user_withheld = true)
    (h3 : u.get_value [u.action, "timestampMs"] =
      JVal.str "2021-01-07T12:00:00.123") :
    u.get_timestamp false =
      Except.ok (TsResult.val (JVal.str "1610020800123")) ∧
    u.get_timestamp true =
      Except.ok (TsResult.dt ⟨2021, 1, 7, 12, 0, 0, 123000, none⟩) := by
  unfold UserAction.get_timestamp ComplianceBase.get_timestamp
  rw [h1, h2, h3]
  exact ⟨rfl, rfl⟩

/-- Claim C5, witness: the statement at the concrete record
`{"user_withheld": {"timestampMs": "2021-01-07T12:00:00.123"}}`. -/
theorem claim_c5_witness :
    withheldUser.get_timestamp false =
      Except.ok (TsResult.val (JVal.str "1610020800123")) ∧
    withheldUser.get_timestamp true =
      Except.ok (TsResult.dt ⟨2021, 1, 7, 12, 0, 0, 123000, none⟩) :=
  claim_c5_user_withheld_timestamp withheldUser rfl rfl rfl

/-- Claim C6.  For every non-user-withheld record (any instance whose
user flag is false, or whose `is_user_withheld` attribute is false)
storing `timestamp_ms = "1610000000123"`, numeric-string extraction
returns that string exactly, and structured extraction returns a datetime
whose epoch-millisecond reconstruction equals 1610000000123. -/
theorem claim_c6_timestamp_round_trip (b : ComplianceBase)
    (iw : Option Bool) (h : b.is_user_action = false ∨ iw = some false)
    (hts : b.get_value [b.action, "timestamp_ms"] =
      JVal.str "1610000000123") :
    b.get_timestamp iw false =
      Except.ok (TsResult.val (JVal.str "1610000000123")) ∧
    ∃ d : PyDateTime,
      b.get_timestamp iw true = Except.ok (TsResult.dt d) ∧
      d.timestampMs = 1610000000123 := by
  have hmain :
      b.get_timestamp iw false =
        Except.ok (TsResult.val (JVal.str "1610000000123")) ∧
      b.get_timestamp iw true =
        Except.ok (TsResult.dt (pyFromtimestampMs 1610000000123)) := by
    rcases h with h | h
    · unfold ComplianceBase.get_timestamp
      rw [h, hts]
      exact ⟨rfl, rfl⟩
    · subst h
      unfold ComplianceBase.get_timestamp
      rw [hts]
      cases hb : b.is_user_action <;> exact ⟨rfl, rfl⟩
  exact ⟨hmain.1, pyFromtimestampMs 1610000000123, hmain.2, by decide⟩

/-- Claim C6, witness: the statement at the concrete record
`{"drop": {"timestamp_ms": "1610000000123"}}`. -/
theorem claim_c6_witness :
    dropTsBase.get_timestamp none false =
      Except.ok (TsResult.val (JVal.str "1610000000123")) ∧
    ∃ d : PyDateTime,
      dropTsBase.get_timestamp none true = Except.ok (TsResult.dt d) ∧
      d.timestampMs = 1610000000123 :=
  claim_c6_timestamp_round_trip dropTsBase none (Or.inl rfl) rfl

/-- A successful classification binds the record unchanged:
`self.comp_object = comp_object`. -/
theorem mkComplianceBase_ok_comp_object (v : JVal) (b : ComplianceBase)
    (h : mkComplianceBase v = Except.ok b) : b.comp_object = v := by
  cases v with
  | null => exact Except.noConfusion h
  | num n => exact Except.noConfusion h
  | str s => exact Except.noConfusion h
  | arr xs => exact Except.noConfusion h
  | obj fields =>
    cases fields with
    | nil => exact Except.noConfusion h
    | cons kv rest =>
      obtain ⟨a, v0⟩ := kv
      unfold mkComplianceBase at h
      simp only [List.head?] at h
      split at h
      · exact Except.noConfusion h
      · cases h
        rfl

/-- A `TweetAction` built from a raw dict binds that dict unchanged. -/
theorem mkTweetAction_dict_comp_object (fields : List (String × JVal))
    (t : TweetAction) (h : mkTweetAction (ViewArg.dict fields) = Except.ok t) :
    t.comp_object = JVal.obj fields := by
  unfold mkTweetAction at h
  simp only [viewInitBase] at h
  cases hm : mkComplianceBase (JVal.obj fields) with
  | error e =>
    rw [hm] at h
    exact Except.noConfusion h
  | ok base =>
    rw [hm] at h
    simp only [Except.map, bind, Except.bind] at h
    split at h
    · exact Except.noConfusion h
    · split at h
      · exact Except.noConfusion h
      · cases h
        exact mkComplianceBase_ok_comp_object _ _ hm

/-- A `UserAction` built from a raw dict binds that dict unchanged. -/
theorem mkUserAction_dict_comp_object (fields : List (String × JVal))
    (u : UserAction) (h : mkUserAction (ViewArg.dict fields) = Except.ok u) :
    u.comp_object = JVal.obj fields := by
  unfold mkUserAction at h
  simp only [viewInitBase] at h
  cases hm : mkComplianceBase (JVal.obj fields) with
  | error e =>
    rw [hm] at h
    exact Except.noConfusion h
  | ok base =>
    rw [hm] at h
    simp only [Except.map, bind, Except.bind] at h
    split at h
    · exact Except.noConfusion h
    · split at h
      · exact Except.noConfusion h
      · cases h
        exact mkComplianceBase_ok_comp_object _ _ hm

/-- A `DropAction` built from a raw dict binds that dict unchanged. -/
theorem mkDropAction_dict_comp_object (fields : List (String × JVal))
    (d : DropAction) (h : mkDropAction (ViewArg.dict fields) = Except.ok d) :
    d.comp_object = JVal.obj fields := by
  unfold mkDropAction at h
  simp only [viewInitBase] at h
  cases hm : mkComplianceBase (JVal.obj fields) with
  | error e =>
    rw [hm] at h
    exact Except.noConfusion h
  | ok base =>
    rw [hm] at h
    simp only [Except.map, bind, Except.bind] at h
    split at h
    · exact Except.noConfusion h
    · split at h
      · exact Except.noConfusion h
      · cases h
        exact mkComplianceBase_ok_comp_object _ _ hm

/-- A `ScrubGeoAction` built from a raw dict binds that dict
unchanged. -/
theorem mkScrubGeoAction_dict_comp_object (fields : List (String × JVal))
    (g : ScrubGeoAction)
    (h : mkScrubGeoAction (ViewArg.dict fields) = Except.ok g) :
    g.comp_object = JVal.obj fields := by
  unfold mkScrubGeoAction at h
  simp only [viewInitBase] at h
  cases hm : mkComplianceBase (JVal.obj fields) with
  | error e =>
    rw [hm] at h
    exact Except.noConfusion h
  | ok base =>
    rw [hm] at h
    simp only [Except.map, bind, Except.bind] at h
    split at h
    · exact Except.noConfusion h
    · cases h
      exact mkComplianceBase_ok_comp_object _ _ hm

/-- A `DeleteLikeAction` built from a raw dict binds that dict
unchanged. -/
theorem mkDeleteLikeAction_dict_comp_object (fields : List (String × JVal))
    (l : DeleteLikeAction)
    (h : mkDeleteLikeAction (ViewArg.dict fields) = Except.ok l) :
    l.comp_object = JVal.obj fields := by
  unfold mkDeleteLikeAction at h
  simp only [viewInitBase] at h
  cases hm : mkComplianceBase (JVal.obj fields) with
  | error e =>
    rw [hm] at h
    exact Except.noConfusion h
  | ok base =>
    rw [hm] at h
    simp only [Except.map, bind, Except.bind] at h
    split at h
    · exact Except.noConfusion h
    · cases h
      exact mkComplianceBase_ok_comp_object _ _ hm

/-- Claim C7.  Re-wrapping is idempotent: for a record that classifies to
`b`, constructing any view from the already-classified `b` is *equal* to
constructing it from the raw record (so flags, sub-action flags and every
accessor output coincide), and the underlying record is bound unchanged
(never mutated) both in `b` and in any successfully constructed view. -/
theorem claim_c7_rewrap_idempotent (fields : List (String × JVal))
    (b : ComplianceBase)
    (h : mkComplianceBase (JVal.obj fields) = Except.ok b) :
    mkTweetAction (ViewArg.base b) = mkTweetAction (ViewArg.dict fields) ∧
    mkUserAction (ViewArg.base b) = mkUserAction (ViewArg.dict fields) ∧
    mkDropAction (ViewArg.base b) = mkDropAction (ViewArg.dict fields) ∧
    mkScrubGeoAction (ViewArg.base b) =
      mkScrubGeoAction (ViewArg.dict fields) ∧
    mkDeleteLikeAction (ViewArg.base b) =
      mkDeleteLikeAction (ViewArg.dict fields) ∧
    b.comp_object = JVal.obj fields ∧
    (∀ t, mkTweetAction (ViewArg.dict fields) = Except.ok t →
      t.comp_object = JVal.obj fields) ∧
    (∀ u, mkUserAction (ViewArg.dict fields) = Except.ok u →
      u.comp_object = JVal.obj fields) ∧
    (∀ d, mkDropAction (ViewArg.dict fields) = Except.ok d →
      d.comp_object = JVal.obj fields) ∧
    (∀ g, mkScrubGeoAction (ViewArg.dict fields) = Except.ok g →
      g.comp_object = JVal.obj fields) ∧
    (∀ l, mkDeleteLikeAction (ViewArg.dict fields) = Except.ok l →
      l.comp_object = JVal.obj fields) := by
  have hco := mkComplianceBase_ok_comp_object _ _ h
  have harg : viewInitBase (ViewArg.base b) =
      viewInitBase (ViewArg.dict fields) := by
    simp only [viewInitBase]
    rw [hco]
  refine ⟨?_, ?_, ?_, ?_, ?_, hco,
    fun t ht => mkTweetAction_dict_comp_object fields t ht,
    fun u hu => mkUserAction_dict_comp_object fields u hu,
    fun d hd => mkDropAction_dict_comp_object fields d hd,
    fun g hg => mkScrubGeoAction_dict_comp_object fields g hg,
    fun l hl => mkDeleteLikeAction_dict_comp_object fields l hl⟩
  · unfold mkTweetAction
    rw [harg]
  · unfold mkUserAction
    rw [harg]
  · unfold mkDropAction
    rw [harg]
  · unfold mkScrubGeoAction
    rw [harg]
  · unfold mkDeleteLikeAction
    rw [harg]

/-- Claim C7, witness: the statement at the concrete record
`{"scrub_geo": {}}` and its classification. -/
theorem claim_c7_witness :
    mkTweetAction (ViewArg.base geoBase) =
      mkTweetAction (ViewArg.dict geoFields) ∧
    mkUserAction (ViewArg.base geoBase) =
      mkUserAction (ViewArg.dict geoFields) ∧
    mkDropAction (ViewArg.base geoBase) =
      mkDropAction (ViewArg.dict geoFields) ∧
    mkScrubGeoAction (ViewArg.base geoBase) =
      mkScrubGeoAction (ViewArg.dict geoFields) ∧
    mkDeleteLikeAction (ViewArg.base geoBase) =
      mkDeleteLikeAction (ViewArg.dict geoFields) ∧
    geoBase.comp_object = JVal.obj geoFields ∧
    (∀ t, mkTweetAction (ViewArg.dict geoFields) = Except.ok t →
      t.comp_object = JVal.obj geoFields) ∧
    (∀ u, mkUserAction (ViewArg.dict geoFields) = Except.ok u →
      u.comp_object = JVal.obj geoFields) ∧
    (∀ d, mkDropAction (ViewArg.dict geoFields) = Except.ok d →
      d.comp_object = JVal.obj geoFields) ∧
    (∀ g, mkScrubGeoAction (ViewArg.dict geoFields) = Except.ok g →
      g.comp_object = JVal.obj geoFields) ∧
    (∀ l, mkDeleteLikeAction (ViewArg.dict geoFields) = Except.ok l →
      l.comp_object = JVal.obj geoFields) :=
  claim_c7_rewrap_idempotent geoFields geoBase rfl

/-- Claim C8, counterexample.  A `ScrubGeoAction` constructs successfully
from `{"scrub_geo": {}}`, yet the source defines no sub-action flags for
that view, so the sum of its sub-action flags is 0, not 1. -/
theorem claim_c8_scrubgeo_flag_sum_zero :
    (mkScrubGeoAction (ViewArg.dict geoFields)).map
        (fun g => flagSum g.subFlags) =
      Except.ok 0 ∧
    (0 : Nat) ≠ 1 :=
  ⟨rfl, by decide⟩

/-- Claim C8, amended: every successfully constructed classifier has
class-flag sum exactly 1, and every successfully constructed Tweet, User
or Drop view has sub-action-flag sum exactly 1; the ScrubGeo and
DeleteLike views define no sub-action flags at all (their flag sum is 0).
All flags are fields fixed at construction — no operation of the model
produces a modified instance. -/
theorem claim_c8_flag_sums :
    (∀ (v : JVal) (b : ComplianceBase),
      mkComplianceBase v = Except.ok b → flagSum b.classFlags = 1) ∧
    (∀ (arg : ViewArg) (t : TweetAction),
      mkTweetAction arg = Except.ok t → flagSum t.subFlags = 1) ∧
    (∀ (arg : ViewArg) (u : UserAction),
      mkUserAction arg = Except.ok u → flagSum u.subFlags = 1) ∧
    (∀ (arg : ViewArg) (d : DropAction),
      mkDropAction arg = Except.ok d → flagSum d.subFlags = 1) ∧
    (∀ g : ScrubGeoAction, flagSum g.subFlags = 0) ∧
    (∀ l : DeleteLikeAction, flagSum l.subFlags = 0) := by
  refine ⟨?_, ?_, ?_, ?_, fun g => rfl, fun l => rfl⟩
  · intro v b h
    cases v with
    | null => exact Except.noConfusion h
    | num n => exact Except.noConfusion h
    | str s => exact Except.noConfusion h
    | arr xs => exact Except.noConfusion h
    | obj fields =>
      cases fields with
      | nil => exact Except.noConfusion h
      | cons kv rest =>
        obtain ⟨a, v0⟩ := kv
        unfold mkComplianceBase at h
        simp only [List.head?] at h
        split at h
        · exact Except.noConfusion h
        · next hcond =>
            cases h
            simp only [ComplianceBase.classFlags]
            simpa using hcond
  · intro arg t h
    unfold mkTweetAction at h
    cases hv : viewInitBase arg with
    | error e =>
      rw [hv] at h
      exact Except.noConfusion h
    | ok ob =>
      rw [hv] at h
      cases ob with
      | none =>
        simp only [bind, Except.bind] at h
        exact Except.noConfusion h
      | some base =>
        simp only [bind, Except.bind] at h
        cases hcl : base.is_tweet_action with
        | false =>
          rw [hcl] at h
          exact Except.noConfusion h
        | true =>
          rw [hcl] at h
          cases hsum : flagSum [base.action == "delete",
              base.action == "tweet_edit",
              base.action == "status_withheld"] != 1 with
          | true =>
            rw [hsum] at h
            exact Except.noConfusion h
          | false =>
            rw [hsum] at h
            cases h
            simp only [TweetAction.subFlags]
            simpa using hsum
  · intro arg u h
    unfold mkUserAction at h
    cases hv : viewInitBase arg with
    | error e =>
      rw [hv] at h
      exact Except.noConfusion h
    | ok ob =>
      rw [hv] at h
      cases ob with
      | none =>
        simp only [bind, Except.bind] at h
        exact Except.noConfusion h
      | some base =>
        simp only [bind, Except.bind] at h
        cases hcl : base.is_user_action with
        | false =>
          rw [hcl] at h
          exact Except.noConfusion h
        | true =>
          rw [hcl] at h
          cases hsum : flagSum [base.action == "user_delete",
              base.action == "user_protect",
              base.action == "user_suspend",
              base.action == "user_undelete",
              base.action == "user_unprotect",
              base.action == "user_unsuspend",
              base.action == "user_withheld"] != 1 with
          | true =>
            rw [hsum] at h
            exact Except.noConfusion h
          | false =>
            rw [hsum] at h
            cases h
            simp only [UserAction.subFlags]
            simpa using hsum
  · intro arg d h
    unfold mkDropAction at h
    cases hv : viewInitBase arg with
    | error e =>
      rw [hv] at h
      exact Except.noConfusion h
    | ok ob =>
      rw [hv] at h
      cases ob with
      | none =>
        simp only [bind, Except.bind] at h
        exact Except.noConfusion h
      | some base =>
        simp only [bind, Except.bind] at h
        cases hcl : base.is_drop_action with
        | false =>
          rw [hcl] at h
          exact Except.noConfusion h
        | true =>
          rw [hcl] at h
          cases hsum : flagSum [base.action == "drop",
              base.action == "undrop"] != 1 with
          | true =>
            rw [hsum] at h
            exact Except.noConfusion h
          | false =>
            rw [hsum] at h
            cases h
            simp only [DropAction.subFlags]
            simpa using hsum

end ComplianceModel
